import Mathlib

/-!
Verification development for the cppast class parser
(`src/libclang/class_parser.cpp`) and the code-generator protocol
(`include/cppast/code_generator.hpp`), via a shallow embedding of the
relevant functions.
-/

/-- Cursor kinds relevant to `parse_class_kind` and friend detection.
`noDeclFound` stands for `CXCursor_NoDeclFound`; `otherKind` stands for any
cursor kind other than the enumerated ones. -/
inductive CXCursorKind
  | classDecl
  | structDecl
  | unionDecl
  | noDeclFound
  | friendDecl
  | otherKind
deriving DecidableEq, Repr

/-- Raw access-specifier values returned by `clang_getCXXAccessSpecifier`. -/
inductive CXAccessSpec
  | invalidAccess
  | accPublic
  | accProtected
  | accPrivate
deriving DecidableEq, Repr

/-- The `cpp_class_kind` enumeration of the entity model. -/
inductive CppClassKind
  | class_t
  | struct_t
  | union_t
deriving DecidableEq, Repr

/-- The `cpp_access_specifier_kind` enumeration. -/
inductive CppAccessKind
  | cpp_public
  | cpp_protected
  | cpp_private
deriving DecidableEq, Repr

/-- Effective cursor kind used by `parse_class_kind`: the template cursor
kind, falling back to the plain cursor kind when there is no template
(`class_parser.cpp` lines 17-19). -/
def effective_kind (templateKind cursorKind : CXCursorKind) : CXCursorKind :=
  if templateKind = CXCursorKind.noDeclFound then cursorKind else templateKind

/-- Embedding of `parse_class_kind` (`class_parser.cpp` lines 15-33): maps the
effective cursor kind to a class kind; any other kind reaches
`DEBUG_UNREACHABLE`, modelled as `none` (fatal abort). -/
def parse_class_kind (templateKind cursorKind : CXCursorKind) : Option CppClassKind :=
  match effective_kind templateKind cursorKind with
  | CXCursorKind.classDecl => some CppClassKind.class_t
  | CXCursorKind.structDecl => some CppClassKind.struct_t
  | CXCursorKind.unionDecl => some CppClassKind.union_t
  | _ => none

/-- Embedding of `convert_access` (`class_parser.cpp` lines 42-59): the
invalid access value falls through to `DEBUG_UNREACHABLE`, modelled as `none`
(fatal abort). -/
def convert_access : CXAccessSpec → Option CppAccessKind
  | CXAccessSpec.invalidAccess => none
  | CXAccessSpec.accPublic => some CppAccessKind.cpp_public
  | CXAccessSpec.accProtected => some CppAccessKind.cpp_protected
  | CXAccessSpec.accPrivate => some CppAccessKind.cpp_private

/-- Spelling of an access specifier, as `to_string(access)` used at
`class_parser.cpp` line 82. -/
def accessSpelling : CppAccessKind → String
  | CppAccessKind.cpp_public => "public"
  | CppAccessKind.cpp_protected => "protected"
  | CppAccessKind.cpp_private => "private"

/-- Name stripping at `class_parser.cpp` lines 114-117: erase everything from
the first occurrence of the character `<` onwards. -/
def stripTemplateArgs (name : String) : String :=
  String.mk (name.data.takeWhile (fun c => c ≠ '<'))

/-- Modelled from the spec: a token is an identifier when it consists of
alphanumeric characters and underscores (the token classification of the
tokenizer, which is not part of the parser source itself). -/
def isIdentTok (s : String) : Bool :=
  !s.isEmpty && s.data.all (fun c => c.isAlphanum || c = '_')

/-- Appending a scope segment to the accumulating scope string, separated by
the scope separator. -/
def appendSeg (scope seg : String) : String :=
  if scope = "" then seg else scope ++ "::" ++ seg

/-- Modelled from the spec: the scan loop of `class_parser.cpp` lines 119-124
together with `detail::skip_if` and `detail::append_scope` (whose bodies are
outside the given sources). Repeatedly: stop as soon as the current token is
exactly the target name; otherwise consume a scope segment (an identifier
followed by the scope-separator punctuation) and append it to the scope
string; otherwise advance one token. -/
def scopeLoop (name : String) : List String → String → String
  | [], scope => scope
  | [t], scope => if t = name then scope else scope
  | t :: t2 :: rest, scope =>
    if t = name then scope
    else if isIdentTok t && t2 = "::" then scopeLoop name rest (appendSeg scope t)
    else scopeLoop name (t2 :: rest) scope

/-- Semantic-parent reference production (`class_parser.cpp` lines 114-128):
strip template arguments from the cursor name, run the scope scan over the
token stream, and produce a reference to the semantic parent's identity with
the accumulated scope as display name only when the scope is non-empty. -/
def resolveSemanticParent (semParentId : Nat) (cursorName : String)
    (tokens : List String) : Option (Nat × String) :=
  let name := stripTemplateArgs cursorName
  let scope := scopeLoop name tokens ""
  if scope = "" then none else some (semParentId, scope)

/-- Claim C1: scanning `A :: B :: Foo ( int )` for target `Foo` accumulates
the scope string `A::B` and produces a semantic-parent reference; scanning
`Foo ( int )` stops at once with an empty scope and produces no reference;
template arguments are stripped from the target name before scanning. -/
theorem claim_C1_scope_resolution :
    scopeLoop "Foo" ["A", "::", "B", "::", "Foo", "(", "int", ")"] "" = "A::B" ∧
    resolveSemanticParent 42 "Foo" ["A", "::", "B", "::", "Foo", "(", "int", ")"]
      = some (42, "A::B") ∧
    resolveSemanticParent 42 "Foo" ["Foo", "(", "int", ")"] = none ∧
    resolveSemanticParent 42 "Foo<int>" ["A", "::", "B", "::", "Foo", "(", "int", ")"]
      = some (42, "A::B") := by
  refine ⟨by decide, by decide, by decide, by decide⟩

/-- Claim C7: an invalid access-specifier value reaches the unreachable-state
assertion in `convert_access` (modelled as `none`), and a class-kind cursor
that is none of class/struct/union reaches the one in `parse_class_kind`;
under the provider's contract (valid access values, class-kind cursors) the
unreachable branches are never taken. -/
theorem claim_C7_unreachable_guards :
    convert_access CXAccessSpec.invalidAccess = none ∧
    parse_class_kind CXCursorKind.noDeclFound CXCursorKind.otherKind = none ∧
    (∀ a : CXAccessSpec, a ≠ CXAccessSpec.invalidAccess →
      (convert_access a).isSome = true) ∧
    (∀ tk ck : CXCursorKind,
      (effective_kind tk ck = CXCursorKind.classDecl ∨
       effective_kind tk ck = CXCursorKind.structDecl ∨
       effective_kind tk ck = CXCursorKind.unionDecl) →
      (parse_class_kind tk ck).isSome = true) := by
  refine ⟨rfl, rfl, ?_, ?_⟩
  · intro a h
    cases a <;> simp_all [convert_access]
  · intro tk ck h
    unfold parse_class_kind
    rcases h with h | h | h <;> rw [h] <;> rfl

/-- Witness for C7 at concrete inputs. -/
theorem claim_C7_unreachable_guards_witness :
    (convert_access CXAccessSpec.accProtected).isSome = true ∧
    (parse_class_kind CXCursorKind.noDeclFound CXCursorKind.structDecl).isSome = true := by
  constructor
  · exact claim_C7_unreachable_guards.2.2.1 CXAccessSpec.accProtected (by decide)
  · exact claim_C7_unreachable_guards.2.2.2 CXCursorKind.noDeclFound
      CXCursorKind.structDecl (Or.inr (Or.inl (by decide)))

/-- Modelled from the spec: `detail::skip_if` (outside the given sources)
consumes the front token when it equals the expected spelling, otherwise
leaves the stream unchanged. -/
def skipIf (tok : String) (ts : List String) : List String :=
  match ts with
  | [] => []
  | t :: rest => if t = tok then rest else t :: rest

/-- Helper for `skipAttribute`: drop tokens up to and including the closing
double bracket of an attribute. -/
def dropToAttrEnd : List String → List String
  | "]" :: "]" :: rest => rest
  | _ :: rest => dropToAttrEnd rest
  | [] => []

/-- Modelled from the spec: `detail::skip_attribute` (outside the given
sources) skips an optional leading attribute sequence `[[ ... ]]` from the
token stream. -/
def skipAttribute (ts : List String) : List String :=
  match ts with
  | "[" :: "[" :: rest => dropToAttrEnd rest
  | _ => ts

/-- A base class as recorded by `builder.base_class` at `class_parser.cpp`
line 87: its spelled name tokens, its access, and its virtual flag. -/
structure BaseClassInfo where
  nameToks : List String
  access : CppAccessKind
  is_virtual : Bool
deriving DecidableEq, Repr

/-- Embedding of `add_base_class` (`class_parser.cpp` lines 67-88): the access
comes from the structural query `convert_access(cur)` (a `none` result models
the fatal assertion); the token stream is stripped of an optional attribute,
of a literal `virtual` when the structural virtual-base query says so, and of
the spelling of the structural access value; the remaining tokens are the
base's spelled name. -/
def add_base_class (accessRaw : CXAccessSpec) (isVirtualBase : Bool)
    (tokens : List String) : Option BaseClassInfo :=
  match convert_access accessRaw with
  | none => none
  | some access =>
    let s1 := skipAttribute tokens
    let s2 := if isVirtualBase then skipIf "virtual" s1 else s1
    let s3 := skipIf (accessSpelling access) s2
    some { nameToks := s3, access := access, is_virtual := isVirtualBase }

/-- Claim C4: the stored access of a base class is exactly the structural
access query's value — independent of the token stream — and the name is what
remains after skipping attribute, `virtual`, and the spelled access keyword;
when no access keyword is spelled the stored access is still the structural
(default) value. -/
theorem claim_C4_base_class_extraction :
    (∀ (raw : CXAccessSpec) (ivb : Bool) (toks toks' : List String),
      (add_base_class raw ivb toks).map BaseClassInfo.access
        = (add_base_class raw ivb toks').map BaseClassInfo.access) ∧
    add_base_class CXAccessSpec.accPublic true
        ["[", "[", "attr", "]", "]", "virtual", "public", "Base"]
      = some ⟨["Base"], CppAccessKind.cpp_public, true⟩ ∧
    add_base_class CXAccessSpec.accPrivate false ["Base"]
      = some ⟨["Base"], CppAccessKind.cpp_private, false⟩ ∧
    add_base_class CXAccessSpec.invalidAccess false ["Base"] = none := by
  refine ⟨?_, by decide, by decide, rfl⟩
  intro raw ivb toks toks'
  cases raw <;> simp [add_base_class, convert_access]

/-- Input facts for `parse_cpp_class`, as supplied by the traversal provider
for one class cursor. `accChildren` stands for the child entities the
`visit_children` callback adds to the builder (`class_parser.cpp` lines
132-150), abstracted by identity. -/
structure ParseClassInput where
  templateKind : CXCursorKind
  cursorKind : CXCursorKind
  hasSpecializedTemplate : Bool
  parentIsFriendDecl : Bool
  isCursorDefinition : Bool
  semParentEqLexParent : Bool
  cursorName : String
  tokens : List String
  entityId : Nat
  semParentId : Nat
  accChildren : List Nat
deriving DecidableEq, Repr

/-- The `is_templated` test of `class_parser.cpp` lines 94-95. -/
def isTemplated (c : ParseClassInput) : Bool :=
  decide (c.templateKind ≠ CXCursorKind.noDeclFound) || c.hasSpecializedTemplate

/-- The class entity produced by the builder's terminal operations. -/
structure ClassEntity where
  name : String
  class_kind : CppClassKind
  is_definition : Bool
  children : List Nat
  semantic_parent : Option (Nat × String)
deriving DecidableEq, Repr

/-- Result of parsing a class cursor: the finished entity together with the
identities newly registered in the symbol table. -/
structure ParseClassResult where
  entity : ClassEntity
  registered : List Nat
deriving DecidableEq, Repr

/-- Embedding of `detail::parse_cpp_class` (`class_parser.cpp` lines 91-160).
The friend test guards both the scope-resolution block and the
definition/declaration dispatch. The four builder terminal calls are modelled
from the spec (their bodies live outside the given sources):
`finish(idx, id, sem)` registers the identity, `finish(sem)` does not;
`finish_declaration(idx, id)` registers, `finish_declaration(id)` does not;
finish-as-declaration produces an entity with `is_definition = false` and no
children. A `none` result models the fatal assertion in `parse_class_kind`. -/
def parse_cpp_class (c : ParseClassInput) : Option ParseClassResult :=
  match parse_class_kind c.templateKind c.cursorKind with
  | none => none
  | some kind =>
    let is_friend := c.parentIsFriendDecl
    let semanticParent :=
      if !is_friend && !c.semParentEqLexParent then
        resolveSemanticParent c.semParentId c.cursorName c.tokens
      else none
    let children := if is_friend then [] else c.accChildren
    if !is_friend && c.isCursorDefinition then
      if isTemplated c then
        some ⟨⟨c.cursorName, kind, true, children, semanticParent⟩, []⟩
      else
        some ⟨⟨c.cursorName, kind, true, children, semanticParent⟩, [c.entityId]⟩
    else
      if isTemplated c then
        some ⟨⟨c.cursorName, kind, false, [], none⟩, []⟩
      else
        some ⟨⟨c.cursorName, kind, false, [], none⟩, [c.entityId]⟩

/-- Claim C2: finishing a template class — as definition or as declaration —
registers nothing in the symbol table. -/
theorem claim_C2_templates_not_registered (c : ParseClassInput)
    (r : ParseClassResult) (ht : isTemplated c = true)
    (h : parse_cpp_class c = some r) : r.registered = [] := by
  unfold parse_cpp_class at h
  cases hk : parse_class_kind c.templateKind c.cursorKind <;> rw [hk] at h
  · exact absurd h (by simp)
  · simp only [ht] at h
    by_cases hd : (!c.parentIsFriendDecl && c.isCursorDefinition) = true <;>
      simp [hd] at h <;> rw [← h]

/-- Witness for C2: a templated definition cursor registers nothing. -/
theorem claim_C2_templates_not_registered_witness :
    isTemplated ⟨CXCursorKind.classDecl, CXCursorKind.otherKind, false, false, true,
        true, "Foo", [], 7, 3, [1, 2]⟩ = true ∧
    (ParseClassResult.mk ⟨"Foo", CppClassKind.class_t, true, [1, 2], none⟩ []).registered
      = [] :=
  ⟨by decide,
   claim_C2_templates_not_registered
     ⟨CXCursorKind.classDecl, CXCursorKind.otherKind, false, false, true,
      true, "Foo", [], 7, 3, [1, 2]⟩
     (ParseClassResult.mk ⟨"Foo", CppClassKind.class_t, true, [1, 2], none⟩ [])
     (by decide) (by decide)⟩

/-- Claim C5: a friend-declared class cursor never yields a semantic-parent
reference — whatever its token stream — and is always finished as a
declaration, never as a definition, even when the cursor is a definition. -/
theorem claim_C5_friend_no_semantic_parent (c : ParseClassInput)
    (r : ParseClassResult) (hf : c.parentIsFriendDecl = true)
    (h : parse_cpp_class c = some r) :
    r.entity.semantic_parent = none ∧ r.entity.is_definition = false := by
  unfold parse_cpp_class at h
  cases hk : parse_class_kind c.templateKind c.cursorKind <;> rw [hk] at h
  · exact absurd h (by simp)
  · by_cases ht : isTemplated c = true <;>
      simp [hf, ht, Bool.eq_false_iff] at h <;> rw [← h] <;> exact ⟨rfl, rfl⟩

/-- Witness for C5: a friend-declared definition cursor with scope-qualified
tokens still yields a declaration without semantic parent. -/
theorem claim_C5_friend_no_semantic_parent_witness :
    (ParseClassInput.mk CXCursorKind.noDeclFound CXCursorKind.classDecl false true true
        false "Foo" ["A", "::", "B", "::", "Foo"] 7 3 []).parentIsFriendDecl = true ∧
    ((ParseClassResult.mk ⟨"Foo", CppClassKind.class_t, false, [], none⟩ [7]).entity.semantic_parent
        = none ∧
      (ParseClassResult.mk ⟨"Foo", CppClassKind.class_t, false, [], none⟩ [7]).entity.is_definition
        = false) :=
  ⟨by decide,
   claim_C5_friend_no_semantic_parent
     (ParseClassInput.mk CXCursorKind.noDeclFound CXCursorKind.classDecl false true true
       false "Foo" ["A", "::", "B", "::", "Foo"] 7 3 [])
     (ParseClassResult.mk ⟨"Foo", CppClassKind.class_t, false, [], none⟩ [7])
     (by decide) (by decide)⟩

/-- Claim C6: whenever the cursor is not a definition or is friend-declared,
the entity is finished as a declaration: `is_definition = false`, no
children, and for templates the symbol table is untouched. -/
theorem claim_C6_finish_declaration (c : ParseClassInput) (r : ParseClassResult)
    (hd : c.isCursorDefinition = false ∨ c.parentIsFriendDecl = true)
    (h : parse_cpp_class c = some r) :
    r.entity.is_definition = false ∧ r.entity.children = [] ∧
      (isTemplated c = true → r.registered = []) := by
  unfold parse_cpp_class at h
  cases hk : parse_class_kind c.templateKind c.cursorKind <;> rw [hk] at h
  · exact absurd h (by simp)
  · have hnd : (!c.parentIsFriendDecl && c.isCursorDefinition) = false := by
      rcases hd with hd | hd <;> simp [hd]
    by_cases ht : isTemplated c = true
    · simp [hnd, ht, Bool.eq_false_iff] at h
      rw [← h]
      exact ⟨rfl, rfl, fun _ => rfl⟩
    · simp [hnd, ht, Bool.eq_false_iff] at h
      rw [← h]
      exact ⟨rfl, rfl, fun hh => absurd hh ht⟩

/-- Witness for C6: a non-definition, non-friend, non-template cursor is
finished as a declaration with no children. -/
theorem claim_C6_finish_declaration_witness :
    (ParseClassInput.mk CXCursorKind.noDeclFound CXCursorKind.structDecl false false false
        true "S" [] 9 4 [5]).isCursorDefinition = false ∧
    ((ParseClassResult.mk ⟨"S", CppClassKind.struct_t, false, [], none⟩ [9]).entity.is_definition
        = false ∧
      (ParseClassResult.mk ⟨"S", CppClassKind.struct_t, false, [], none⟩ [9]).entity.children
        = [] ∧
      (isTemplated (ParseClassInput.mk CXCursorKind.noDeclFound CXCursorKind.structDecl
          false false false true "S" [] 9 4 [5]) = true →
        (ParseClassResult.mk ⟨"S", CppClassKind.struct_t, false, [], none⟩ [9]).registered
          = [])) :=
  ⟨by decide,
   claim_C6_finish_declaration
     (ParseClassInput.mk CXCursorKind.noDeclFound CXCursorKind.structDecl false false false
       true "S" [] 9 4 [5])
     (ParseClassResult.mk ⟨"S", CppClassKind.struct_t, false, [], none⟩ [9])
     (Or.inl (by decide)) (by decide)⟩

/-- The `synopsis_options` enumeration of `code_generator`
(`code_generator.hpp` lines 133-138). -/
inductive SynopsisOptions
  | exclude
  | declaration
  | definition
deriving DecidableEq, Repr

/-- A minimal stand-in for `cpp_entity`, carrying only a name. -/
structure CppEntity where
  name : String
deriving DecidableEq, Repr

/-- One call made on the backing `code_generator` by the `output` sentinel:
either a dispatch callback (`on_container_end`) or one of the `do_` virtual
operations. -/
inductive GenCall
  | containerEnd (e : CppEntity)
  | keywordCall (s : String)
  | identifierCall (s : String)
  | referenceCall (ids : List Nat) (name : String)
  | punctuationCall (s : String)
  | strLiteralCall (s : String)
  | intLiteralCall (s : String)
  | floatLiteralCall (s : String)
  | preprocessorCall (s : String)
  | tokenSeqCall (s : String)
  | newlineCall
  | whitespaceCall
  | indentCall
  | unindentCall
deriving DecidableEq, Repr

/-- State of a `code_generator::output` object after construction
(`code_generator.hpp` lines 151-157): the synopsis options returned by the
dispatch callback and, for containers, the stored entity reference `e_`. -/
structure Output where
  options : SynopsisOptions
  containerEntity : Option CppEntity
deriving DecidableEq, Repr

/-- Embedding of the `output` constructor: dispatch to `on_container_begin`
or `on_leaf` according to `is_container`, and store the entity only for
containers. -/
def Output.create (onContainerBegin onLeaf : CppEntity → SynopsisOptions)
    (e : CppEntity) (is_container : Bool) : Output :=
  { options := if is_container then onContainerBegin e else onLeaf e,
    containerEntity := if is_container then some e else none }

/-- Embedding of `output::operator bool` (`code_generator.hpp` lines
175-178). -/
def Output.active (o : Output) : Bool :=
  o.options != SynopsisOptions.exclude

/-- Calls emitted by `operator<<(const keyword&)` (lines 211-216). -/
def Output.writeKeyword (o : Output) (s : String) : List GenCall :=
  if o.active then [GenCall.keywordCall s] else []

/-- Calls emitted by `operator<<(const identifier&)` (lines 218-224). -/
def Output.writeIdentifier (o : Output) (s : String) : List GenCall :=
  if o.active then [GenCall.identifierCall s] else []

/-- Calls emitted by `operator<<` on an entity reference (lines 226-233). -/
def Output.writeReference (o : Output) (ids : List Nat) (name : String) : List GenCall :=
  if o.active then [GenCall.referenceCall ids name] else []

/-- Calls emitted by `operator<<(const punctuation&)` (lines 235-241). -/
def Output.writePunctuation (o : Output) (s : String) : List GenCall :=
  if o.active then [GenCall.punctuationCall s] else []

/-- Calls emitted by `operator<<(const string_literal&)` (lines 243-249). -/
def Output.writeStrLiteral (o : Output) (s : String) : List GenCall :=
  if o.active then [GenCall.strLiteralCall s] else []

/-- Calls emitted by `operator<<(const int_literal&)` (lines 251-257). -/
def Output.writeIntLiteral (o : Output) (s : String) : List GenCall :=
  if o.active then [GenCall.intLiteralCall s] else []

/-- Calls emitted by `operator<<(const float_literal&)` (lines 259-265). -/
def Output.writeFloatLiteral (o : Output) (s : String) : List GenCall :=
  if o.active then [GenCall.floatLiteralCall s] else []

/-- Calls emitted by `operator<<(const preprocessor_token&)` (lines
267-273). -/
def Output.writePreprocessor (o : Output) (s : String) : List GenCall :=
  if o.active then [GenCall.preprocessorCall s] else []

/-- Calls emitted by `operator<<(const token_seq&)` (lines 275-281). -/
def Output.writeTokenSeq (o : Output) (s : String) : List GenCall :=
  if o.active then [GenCall.tokenSeqCall s] else []

/-- Calls emitted by `operator<<(newl_t)` (lines 283-289). -/
def Output.writeNewl (o : Output) : List GenCall :=
  if o.active then [GenCall.newlineCall] else []

/-- Calls emitted by `operator<<(whitespace_t)` (lines 291-297). -/
def Output.writeWhitespace (o : Output) : List GenCall :=
  if o.active then [GenCall.whitespaceCall] else []

/-- Calls emitted by `output::indent` (`code_generator.hpp` lines 192-201):
`do_indent` then, when requested, `do_write_newline`, all guarded by the
active test. -/
def Output.indentOp (o : Output) (print_newline : Bool) : List GenCall :=
  if o.active then
    GenCall.indentCall :: (if print_newline then [GenCall.newlineCall] else [])
  else []

/-- Calls emitted by `output::unindent` (lines 203-208). -/
def Output.unindentOp (o : Output) : List GenCall :=
  if o.active then [GenCall.unindentCall] else []

/-- Calls emitted by the `output` destructor (lines 163-167): call
`on_container_end` only when active and an entity reference was stored. -/
def Output.dtor (o : Output) : List GenCall :=
  match o.containerEntity with
  | some e => if o.active then [GenCall.containerEnd e] else []
  | none => []

/-- Claim C3: when the dispatch callback returns `exclude` for an entity,
every subsequent stream write on its `output` object makes no backend call,
and `on_container_end` is never invoked, the destructor included. -/
theorem claim_C3_exclude_suppresses_all (ocb ol : CppEntity → SynopsisOptions)
    (e : CppEntity) (is_container : Bool) (s : String) (ids : List Nat)
    (h : (if is_container then ocb e else ol e) = SynopsisOptions.exclude) :
    (Output.create ocb ol e is_container).writeKeyword s = [] ∧
    (Output.create ocb ol e is_container).writeIdentifier s = [] ∧
    (Output.create ocb ol e is_container).writeReference ids s = [] ∧
    (Output.create ocb ol e is_container).writePunctuation s = [] ∧
    (Output.create ocb ol e is_container).writeStrLiteral s = [] ∧
    (Output.create ocb ol e is_container).writeIntLiteral s = [] ∧
    (Output.create ocb ol e is_container).writeFloatLiteral s = [] ∧
    (Output.create ocb ol e is_container).writePreprocessor s = [] ∧
    (Output.create ocb ol e is_container).writeTokenSeq s = [] ∧
    (Output.create ocb ol e is_container).writeNewl = [] ∧
    (Output.create ocb ol e is_container).writeWhitespace = [] ∧
    (Output.create ocb ol e is_container).dtor = [] := by
  have hact : (Output.create ocb ol e is_container).active = false := by
    simp [Output.create, Output.active, h]
  refine ⟨?_, ?_, ?_, ?_, ?_, ?_, ?_, ?_, ?_, ?_, ?_, ?_⟩ <;>
    simp [Output.writeKeyword, Output.writeIdentifier, Output.writeReference,
      Output.writePunctuation, Output.writeStrLiteral, Output.writeIntLiteral,
      Output.writeFloatLiteral, Output.writePreprocessor, Output.writeTokenSeq,
      Output.writeNewl, Output.writeWhitespace, Output.dtor, hact]
  cases hc : (Output.create ocb ol e is_container).containerEntity <;> simp [hact]

/-- Witness for C3 on a concrete excluding backend and container entity. -/
theorem claim_C3_exclude_suppresses_all_witness :
    (if true then (fun _ : CppEntity => SynopsisOptions.exclude) ⟨"c"⟩
     else (fun _ : CppEntity => SynopsisOptions.definition) ⟨"c"⟩)
      = SynopsisOptions.exclude ∧
    (Output.create (fun _ => SynopsisOptions.exclude)
        (fun _ => SynopsisOptions.definition) ⟨"c"⟩ true).writeKeyword "class" = [] :=
  ⟨rfl,
   (claim_C3_exclude_suppresses_all (fun _ => SynopsisOptions.exclude)
     (fun _ => SynopsisOptions.definition) ⟨"c"⟩ true "class" [1] rfl).1⟩

/-- Claim C10: on an `output` whose synopsis options are `exclude`, the
`indent` and `unindent` operations call none of `do_indent`, `do_unindent`
or `do_write_newline`: they emit no backend call at all. -/
theorem claim_C10_exclude_indent_frame (o : Output) (print_newline : Bool)
    (h : o.options = SynopsisOptions.exclude) :
    o.indentOp print_newline = [] ∧ o.unindentOp = [] := by
  have hact : o.active = false := by simp [Output.active, h]
  constructor <;> simp [Output.indentOp, Output.unindentOp, hact]

/-- Witness for C10 on a concrete excluded output. -/
theorem claim_C10_exclude_indent_frame_witness :
    (Output.mk SynopsisOptions.exclude none).options = SynopsisOptions.exclude ∧
    ((Output.mk SynopsisOptions.exclude none).indentOp true = [] ∧
      (Output.mk SynopsisOptions.exclude none).unindentOp = []) :=
  ⟨rfl, claim_C10_exclude_indent_frame (Output.mk SynopsisOptions.exclude none) true rfl⟩

/-- The virtual operations of `code_generator` that write output, as a record
of functions acting on an abstract backend state `σ`
(`code_generator.hpp` lines 336-407). -/
structure CodeGen (σ : Type) where
  doIndent : σ → σ
  doUnindent : σ → σ
  doWriteTokenSeq : String → σ → σ
  doWriteKeyword : String → σ → σ
  doWriteIdentifier : String → σ → σ
  doWriteReference : List Nat → String → σ → σ
  doWritePunctuation : String → σ → σ
  doWriteStrLiteral : String → σ → σ
  doWriteIntLiteral : String → σ → σ
  doWriteFloatLiteral : String → σ → σ
  doWritePreprocessor : String → σ → σ
  doWriteNewline : σ → σ
  doWriteWhitespace : σ → σ

/-- A generator built from only the three mandatory operations, with every
other virtual operation left at its base-class default body
(`code_generator.hpp` lines 351-407): each per-token-class write forwards its
text to `do_write_token_seq`; the reference write forwards only the display
name; the newline default forwards a newline character and the whitespace
default a single space. -/
def mkCodeGen {σ : Type} (ind unind : σ → σ) (ts : String → σ → σ) : CodeGen σ :=
  { doIndent := ind
    doUnindent := unind
    doWriteTokenSeq := ts
    doWriteKeyword := fun s => ts s
    doWriteIdentifier := fun s => ts s
    doWriteReference := fun _ name => ts name
    doWritePunctuation := fun s => ts s
    doWriteStrLiteral := fun s => ts s
    doWriteIntLiteral := fun s => ts s
    doWriteFloatLiteral := fun s => ts s
    doWritePreprocessor := fun s => ts s
    doWriteNewline := ts "\n"
    doWriteWhitespace := ts " " }

/-- Dispatch of one backend call against a generator: each call invokes the
corresponding virtual operation on the state; `on_container_end` is a
dispatch callback, not a write, and leaves the state unchanged. -/
def runCall {σ : Type} (g : CodeGen σ) (c : GenCall) (st : σ) : σ :=
  match c with
  | GenCall.containerEnd _ => st
  | GenCall.keywordCall s => g.doWriteKeyword s st
  | GenCall.identifierCall s => g.doWriteIdentifier s st
  | GenCall.referenceCall ids name => g.doWriteReference ids name st
  | GenCall.punctuationCall s => g.doWritePunctuation s st
  | GenCall.strLiteralCall s => g.doWriteStrLiteral s st
  | GenCall.intLiteralCall s => g.doWriteIntLiteral s st
  | GenCall.floatLiteralCall s => g.doWriteFloatLiteral s st
  | GenCall.preprocessorCall s => g.doWritePreprocessor s st
  | GenCall.tokenSeqCall s => g.doWriteTokenSeq s st
  | GenCall.newlineCall => g.doWriteNewline st
  | GenCall.whitespaceCall => g.doWriteWhitespace st
  | GenCall.indentCall => g.doIndent st
  | GenCall.unindentCall => g.doUnindent st

/-- Running a sequence of backend calls in order. -/
def runCalls {σ : Type} (g : CodeGen σ) (cs : List GenCall) (st : σ) : σ :=
  cs.foldl (fun a c => runCall g c a) st

/-- Claim C8: every default write operation of a generator implementing only
the primitive `do_write_token_seq` (with indentation and newline emission)
forwards its text to that primitive, the reference write forwarding only the
display name, so such a backend receives every token written. -/
theorem claim_C8_defaults_forward {σ : Type} (ind unind : σ → σ)
    (ts : String → σ → σ) (s : String) (ids : List Nat) (st : σ) :
    (mkCodeGen ind unind ts).doWriteKeyword s st = ts s st ∧
    (mkCodeGen ind unind ts).doWriteIdentifier s st = ts s st ∧
    (mkCodeGen ind unind ts).doWriteReference ids s st = ts s st ∧
    (mkCodeGen ind unind ts).doWritePunctuation s st = ts s st ∧
    (mkCodeGen ind unind ts).doWriteStrLiteral s st = ts s st ∧
    (mkCodeGen ind unind ts).doWriteIntLiteral s st = ts s st ∧
    (mkCodeGen ind unind ts).doWriteFloatLiteral s st = ts s st ∧
    (mkCodeGen ind unind ts).doWritePreprocessor s st = ts s st ∧
    (mkCodeGen ind unind ts).doWriteNewline st = ts "\n" st ∧
    (mkCodeGen ind unind ts).doWriteWhitespace st = ts " " st :=
  ⟨rfl, rfl, rfl, rfl, rfl, rfl, rfl, rfl, rfl, rfl⟩

/-- The minimal backend over a string state: `do_write_token_seq` appends the
text, indentation tracking writes nothing by itself (per the contract, an
indentation change becomes visible only at a newline). -/
def stringGen : CodeGen String := mkCodeGen id id (fun s acc => acc ++ s)

/-- Number of newline characters in a string. -/
def newlineCount (s : String) : Nat := s.data.count '\n'

/-- Whether a backend call is the newline-emission operation
`do_write_newline`. -/
def isNewlineCall : GenCall → Bool
  | GenCall.newlineCall => true
  | _ => false

/-- Modelled from the spec: the driver passes single source tokens to the
per-token-class writes, so the text argument of every write other than
`do_write_newline` contains no newline character. -/
def callNewlineFree : GenCall → Bool
  | GenCall.keywordCall s => s.data.all (fun c => c ≠ '\n')
  | GenCall.identifierCall s => s.data.all (fun c => c ≠ '\n')
  | GenCall.referenceCall _ name => name.data.all (fun c => c ≠ '\n')
  | GenCall.punctuationCall s => s.data.all (fun c => c ≠ '\n')
  | GenCall.strLiteralCall s => s.data.all (fun c => c ≠ '\n')
  | GenCall.intLiteralCall s => s.data.all (fun c => c ≠ '\n')
  | GenCall.floatLiteralCall s => s.data.all (fun c => c ≠ '\n')
  | GenCall.preprocessorCall s => s.data.all (fun c => c ≠ '\n')
  | GenCall.tokenSeqCall s => s.data.all (fun c => c ≠ '\n')
  | _ => true

/-- Newline count distributes over string concatenation. -/
theorem newlineCount_append (a b : String) :
    newlineCount (a ++ b) = newlineCount a + newlineCount b := by
  simp [newlineCount, String.data_append, List.count_append]

/-- A string all of whose characters differ from the newline character
contains no newline. -/
theorem newlineCount_eq_zero (s : String)
    (h : s.data.all (fun c => c ≠ '\n') = true) : newlineCount s = 0 := by
  simp only [newlineCount, List.count_eq_zero]
  intro hmem
  simp [List.all_eq_true] at h
  exact h '\n' hmem rfl

/-- One call against the minimal backend adds a newline to the output exactly
when it is the newline-emission call. -/
theorem runCall_newlineCount (c : GenCall) (st : String)
    (h : callNewlineFree c = true) :
    newlineCount (runCall stringGen c st)
      = newlineCount st + (if isNewlineCall c then 1 else 0) := by
  cases c <;>
    simp_all [runCall, stringGen, mkCodeGen, isNewlineCall, callNewlineFree,
      newlineCount_append] <;>
    first
      | decide
      | (simp only [newlineCount, List.count_eq_zero]; intro hm; exact h _ hm rfl)

/-- Accumulated form of the newline accounting over a call sequence. -/
theorem runCalls_newlineCount (cs : List GenCall) (st : String)
    (h : ∀ c ∈ cs, callNewlineFree c = true) :
    newlineCount (runCalls stringGen cs st)
      = newlineCount st + cs.countP (fun c => isNewlineCall c) := by
  induction cs generalizing st with
  | nil => simp [runCalls]
  | cons c cs ih =>
    have hc := h c (List.mem_cons_self c cs)
    have hrest : ∀ x ∈ cs, callNewlineFree x = true :=
      fun x hx => h x (List.mem_cons_of_mem c hx)
    have hstep : runCalls stringGen (c :: cs) st
        = runCalls stringGen cs (runCall stringGen c st) := rfl
    rw [hstep, ih _ hrest, runCall_newlineCount c st hc, List.countP_cons]
    omega

/-- Claim C9: a newline character reaches the rendered output only through
`do_write_newline` — for call sequences whose token texts are newline-free,
the newline count of the minimal backend's output equals the number of
newline-emission calls, so counting those calls counts every newline. -/
theorem claim_C9_newline_only_through_newline (cs : List GenCall)
    (h : ∀ c ∈ cs, callNewlineFree c = true) :
    newlineCount (runCalls stringGen cs "")
      = cs.countP (fun c => isNewlineCall c) := by
  rw [runCalls_newlineCount cs "" h]
  have h0 : newlineCount "" = 0 := rfl
  omega

/-- Witness for C9 on a concrete call sequence with exactly one newline. -/
theorem claim_C9_newline_only_through_newline_witness :
    newlineCount (runCalls stringGen
        [GenCall.keywordCall "int", GenCall.whitespaceCall,
         GenCall.identifierCall "x", GenCall.punctuationCall ";",
         GenCall.newlineCall] "")
      = List.countP (fun c => isNewlineCall c)
          [GenCall.keywordCall "int", GenCall.whitespaceCall,
           GenCall.identifierCall "x", GenCall.punctuationCall ";",
           GenCall.newlineCall] :=
  claim_C9_newline_only_through_newline
    [GenCall.keywordCall "int", GenCall.whitespaceCall,
     GenCall.identifierCall "x", GenCall.punctuationCall ";",
     GenCall.newlineCall]
    (by decide)
